import Mathlib

/-!
Shallow embedding of the loan-lifecycle core of the Library-Management
repository (Django app `library`): the models' date/quantity logic
(`src/library/models.py`) and the view functions `issue_create`,
`issue_return`, `issue_renew`, `fine_pay` (`src/library/views.py`),
together with the constants of `src/library/constants.py`.

Dates are calendar days encoded as integers (a `DateField` day count);
`timezone.now().date()` and `date.today()` are the same ambient clock,
passed in explicitly as a `today` parameter.  Quantities and counters are
Django `IntegerField`s, embedded as `Int`.
-/

namespace Library

abbrev Date := Int

/-- `Fine.STATUS_CHOICES` in models.py: PENDING / PAID / WAIVED. -/
inductive FineStatus where
  | pending
  | paid
  | waived
deriving DecidableEq, Repr

/-- The fields of `Book` (models.py) that the lifecycle reads or writes. -/
structure Book where
  total_quantity : Int
  available_quantity : Int
deriving DecidableEq, Repr

/-- The fields of `Issue` (models.py) that the lifecycle reads or writes.
Books and users are referenced by id.  `max_renewals` has model default 2,
`renewal_count` default 0, `return_date` nullable. -/
structure Issue where
  bookId : Nat
  userId : Nat
  issue_date : Date
  due_date : Date
  return_date : Option Date
  renewal_count : Int
  max_renewals : Int
  issued_by : Option Nat
  returned_to : Option Nat
deriving DecidableEq, Repr

/-- The fields of `Fine` (models.py) that the lifecycle reads or writes. -/
structure Fine where
  issueId : Nat
  amount : Int
  status : FineStatus
  payment_date : Option Date
  payment_method : String
deriving DecidableEq, Repr

/-- constants.py, `FineSettings.FINE_PER_DAY = 10` (Rs 10 per day). -/
def FineSettings.FINE_PER_DAY : Int := 10

/-- constants.py, `IssueSettings.DEFAULT_ISSUE_DAYS = 14`. -/
def IssueSettings.DEFAULT_ISSUE_DAYS : Int := 14

/-- constants.py, `IssueSettings.MAX_RENEWALS = 2`. -/
def IssueSettings.MAX_RENEWALS : Int := 2

/-- constants.py, `IssueSettings.RENEWAL_DAYS = 7`. -/
def IssueSettings.RENEWAL_DAYS : Int := 7

/-- views.py `issue_create`: `days = int(request.POST.get('days', 14))` —
the loan length defaults to 14 days when the request supplies none. -/
def default_issue_days : Int := 14

/-- models.py `Issue.is_overdue`:
`if self.return_date: return False` then
`return timezone.now().date() > self.due_date`.
A Python `date` is always truthy, so the first test is "return_date is set".
The live clock `timezone.now().date()` is the explicit `today` argument. -/
def Issue.is_overdue (i : Issue) (today : Date) : Bool :=
  match i.return_date with
  | some _ => false
  | none => decide (today > i.due_date)

/-- models.py `Issue.days_overdue`:
`if not self.is_overdue: return 0` then
`return (timezone.now().date() - self.due_date).days`. -/
def Issue.days_overdue (i : Issue) (today : Date) : Int :=
  if i.is_overdue today then today - i.due_date else 0

/-- models.py `Issue.calculate_fine`:
`if self.is_overdue: return self.days_overdue * 10` else `return 0`. -/
def Issue.calculate_fine (i : Issue) (today : Date) : Int :=
  if i.is_overdue today then i.days_overdue today * 10 else 0

/-- The database state the four lifecycle views mutate: rows are indexed by
their position in the list (the Django primary key). -/
structure LibState where
  books : List Book
  issues : List Issue
  fines : List Fine
deriving DecidableEq, Repr

/-- The distinct failure branches of the four views (each surfaces as a
`messages.error` / `messages.warning` without saving anything). -/
inductive LibError where
  | notFound
  | unavailable
  | permissionDenied
  | alreadyReturned
  | renewalLimit
deriving DecidableEq, Repr

/-- `request.user` together with `request.user.profile.role` for the views
that inspect the role. -/
structure Actor where
  id : Nat
  role : String
deriving DecidableEq, Repr

/-- views.py `issue_create` (POST path): look up the book; if
`book.available_quantity <= 0` report "Book is not available!" and change
nothing; otherwise create an `Issue` with `issue_date = today`,
`due_date = today + days`, model defaults `renewal_count = 0`,
`max_renewals = 2`, `return_date = None`, and decrement
`book.available_quantity` by 1.  Returns the new issue's id. -/
def issue_create (s : LibState) (bookId userId actorId : Nat) (today : Date)
    (days : Int) : Except LibError (LibState × Nat) :=
  match s.books[bookId]? with
  | none => .error .notFound
  | some book =>
    if book.available_quantity ≤ 0 then
      .error .unavailable
    else
      let issue : Issue :=
        { bookId := bookId, userId := userId, issue_date := today,
          due_date := today + days, return_date := none,
          renewal_count := 0, max_renewals := 2,
          issued_by := some actorId, returned_to := none }
      let book2 : Book :=
        { book with available_quantity := book.available_quantity - 1 }
      let s2 : LibState :=
        { s with books := s.books.set bookId book2, issues := s.issues ++ [issue] }
      .ok (s2, s.issues.length)

/-- views.py `issue_return`: if `issue.return_date` is set, warn
"Book already returned!" and change nothing.  Otherwise set
`return_date = date.today()` and `returned_to`, save, increment
`issue.book.available_quantity` by 1, then — on the already-updated issue
object — test `issue.is_overdue` and, when it holds, create a PENDING
`Fine` with `amount = issue.calculate_fine()`.  The second component of
the result is the fine amount when a fine row was created. -/
def issue_return (s : LibState) (issueId actorId : Nat) (today : Date) :
    Except LibError (LibState × Option Int) :=
  match s.issues[issueId]? with
  | none => .error .notFound
  | some issue =>
    if issue.return_date.isSome then
      .error .alreadyReturned
    else
      let issue2 : Issue :=
        { issue with return_date := some today, returned_to := some actorId }
      match s.books[issue.bookId]? with
      | none => .error .notFound
      | some book =>
        let book2 : Book :=
          { book with available_quantity := book.available_quantity + 1 }
        let s2 : LibState :=
          { s with issues := s.issues.set issueId issue2, books := s.books.set issue.bookId book2 }
        if issue2.is_overdue today then
          let amt := issue2.calculate_fine today
          let newFine : Fine :=
            { issueId := issueId, amount := amt, status := .pending, payment_date := none, payment_method := "" }
          .ok ({ s2 with fines := s2.fines ++ [newFine] }, some amt)
        else
          .ok (s2, none)

/-- `UserProfile` (models.py) declares `role` as a model field, so
`hasattr(request.user.profile, 'role')` is `True` for every user that
reaches the check. -/
def hasattr_profile_role : Bool := true

/-- views.py `issue_renew`, line 321, transcribed with Python precedence
(`and` binds tighter than `or`):
`issue.user != request.user and not hasattr(request.user.profile, 'role')
 or request.user.profile.role not in ['ADMIN', 'LIBRARIAN']`. -/
def renew_denied (issue : Issue) (actor : Actor) : Bool :=
  (decide (issue.userId ≠ actor.id) && !hasattr_profile_role)
    || !(decide (actor.role = "ADMIN") || decide (actor.role = "LIBRARIAN"))

/-- views.py `issue_renew`: permission check, then "already returned",
then `renewal_count >= max_renewals`; otherwise
`due_date += timedelta(days=7)` and `renewal_count += 1`. -/
def issue_renew (s : LibState) (issueId : Nat) (actor : Actor) :
    Except LibError LibState :=
  match s.issues[issueId]? with
  | none => .error .notFound
  | some issue =>
    if renew_denied issue actor then
      .error .permissionDenied
    else if issue.return_date.isSome then
      .error .alreadyReturned
    else if issue.renewal_count ≥ issue.max_renewals then
      .error .renewalLimit
    else
      let issue2 : Issue :=
        { issue with due_date := issue.due_date + 7, renewal_count := issue.renewal_count + 1 }
      .ok { s with issues := s.issues.set issueId issue2 }

/-- views.py `fine_pay` (POST path): unconditionally set
`fine.status = 'PAID'`, `fine.payment_date = date.today()`,
`fine.payment_method = request.POST.get('payment_method', 'CASH')` and
save.  There is no check of the fine's current status. -/
def fine_pay (s : LibState) (fineId : Nat) (method : String) (today : Date) :
    Except LibError LibState :=
  match s.fines[fineId]? with
  | none => .error .notFound
  | some fine =>
    let fine2 : Fine :=
      { fine with status := .paid, payment_date := some today, payment_method := method }
    .ok { s with fines := s.fines.set fineId fine2 }

/-- One lifecycle request against the database. -/
inductive Op where
  | issue (bookId userId actorId : Nat) (today : Date) (days : Int)
  | ret (issueId actorId : Nat) (today : Date)
  | renew (issueId : Nat) (actor : Actor)
  | pay (fineId : Nat) (method : String) (today : Date)
deriving Repr

/-- Apply one request: a failing view leaves the database untouched. -/
def applyOp (s : LibState) (op : Op) : LibState :=
  match op with
  | .issue b u a t d =>
    match issue_create s b u a t d with
    | .ok (s2, _) => s2
    | .error _ => s
  | .ret i a t =>
    match issue_return s i a t with
    | .ok (s2, _) => s2
    | .error _ => s
  | .renew i a =>
    match issue_renew s i a with
    | .ok s2 => s2
    | .error _ => s
  | .pay f m t =>
    match fine_pay s f m t with
    | .ok s2 => s2
    | .error _ => s

/-- Run a sequence of lifecycle requests. -/
def runOps (s : LibState) (ops : List Op) : LibState :=
  ops.foldl applyOp s

/-- The issue row is an ACTIVE loan of book `b`. -/
def isActiveFor (b : Nat) (i : Issue) : Bool :=
  i.bookId == b && i.return_date.isNone

/-- Number of ACTIVE loans of book `b` in the database. -/
def activeLoans (s : LibState) (b : Nat) : Nat :=
  s.issues.countP (isActiveFor b)

/-- Inventory bookkeeping invariant: every book's available count is
non-negative and differs from its total exactly by its active loans. -/
def Inv (s : LibState) : Prop :=
  ∀ b book, s.books[b]? = some book →
    0 ≤ book.available_quantity ∧
    book.available_quantity + (activeLoans s b : Int) = book.total_quantity

/-- The Loan row that `issue_create` inserts. -/
def newLoan (b u a : Nat) (t : Date) (d : Int) : Issue :=
  { bookId := b, userId := u, issue_date := t, due_date := t + d, return_date := none, renewal_count := 0, max_renewals := 2, issued_by := some a, returned_to := none }

/-! Concrete database fixtures used by witnesses and counterexamples.
Dates are day numbers; book 0 has 2 copies with 1 on loan to user 5. -/

def c1_iss : Issue :=
  { bookId := 0, userId := 5, issue_date := 86, due_date := 100, return_date := none, renewal_count := 0, max_renewals := 2, issued_by := some 1, returned_to := none }

def c1_s : LibState := { books := [⟨2, 1⟩], issues := [c1_iss], fines := [] }

def c1_s2 : LibState :=
  { books := [⟨2, 2⟩], issues := [{ bookId := 0, userId := 5, issue_date := 86, due_date := 100, return_date := some 105, renewal_count := 0, max_renewals := 2, issued_by := some 1, returned_to := some 1 }], fines := [] }

def c3_iss : Issue :=
  { bookId := 0, userId := 5, issue_date := 86, due_date := 100, return_date := none, renewal_count := 0, max_renewals := 2, issued_by := some 1, returned_to := none }

def c3_s : LibState := { books := [⟨2, 1⟩], issues := [c3_iss], fines := [] }

def c4_fine : Fine :=
  { issueId := 0, amount := 50, status := .paid, payment_date := some 50, payment_method := "CASH" }

def c4_s : LibState := { books := [], issues := [], fines := [c4_fine] }

def c4w_fine : Fine :=
  { issueId := 0, amount := 50, status := .pending, payment_date := none, payment_method := "" }

def c4w_s : LibState := { books := [], issues := [], fines := [c4w_fine] }

def c5_iss : Issue :=
  { bookId := 0, userId := 5, issue_date := 86, due_date := 100, return_date := none, renewal_count := 0, max_renewals := 2, issued_by := some 1, returned_to := none }

def c5_s : LibState := { books := [⟨2, 1⟩], issues := [c5_iss], fines := [] }

def c6_iss : Issue :=
  { bookId := 0, userId := 5, issue_date := 86, due_date := 100, return_date := none, renewal_count := 0, max_renewals := 2, issued_by := some 1, returned_to := none }

def c6_s : LibState := { books := [⟨2, 1⟩], issues := [c6_iss], fines := [] }

def c6_actor : Actor := { id := 1, role := "LIBRARIAN" }

def c7_iss : Issue :=
  { bookId := 0, userId := 5, issue_date := 86, due_date := 100, return_date := some 99, renewal_count := 0, max_renewals := 2, issued_by := some 1, returned_to := some 1 }

def c7_s : LibState := { books := [⟨2, 2⟩], issues := [c7_iss], fines := [] }

def c7_actor : Actor := { id := 1, role := "ADMIN" }

def c8_s : LibState := { books := [⟨3, 0⟩], issues := [], fines := [] }

def c9_s : LibState := { books := [⟨2, 1⟩], issues := [], fines := [] }

def c10_iss : Issue :=
  { bookId := 0, userId := 5, issue_date := 0, due_date := 100, return_date := some 400, renewal_count := 0, max_renewals := 2, issued_by := some 1, returned_to := some 1 }

def c2_s0 : LibState := { books := [⟨1, 1⟩], issues := [], fines := [] }

theorem issue_create_ok (s : LibState) (b u a : Nat) (t : Date) (d : Int)
    (book : Book) (hb : s.books[b]? = some book)
    (hpos : 0 < book.available_quantity) :
    issue_create s b u a t d = .ok ({ s with books := s.books.set b { book with available_quantity := book.available_quantity - 1 }, issues := s.issues ++ [newLoan b u a t d] }, s.issues.length) := by
  have hng : ¬ book.available_quantity ≤ 0 := by omega
  simp [issue_create, hb, hng, newLoan]

theorem issue_create_unavailable (s : LibState) (b u a : Nat) (t : Date) (d : Int)
    (book : Book) (hb : s.books[b]? = some book)
    (hnp : book.available_quantity ≤ 0) :
    issue_create s b u a t d = .error .unavailable := by
  simp [issue_create, hb, hnp]

theorem issue_return_ok (s : LibState) (j aid : Nat) (t : Date)
    (iss : Issue) (book : Book)
    (hj : s.issues[j]? = some iss) (hact : iss.return_date = none)
    (hb : s.books[iss.bookId]? = some book) :
    issue_return s j aid t = .ok ({ s with issues := s.issues.set j { iss with return_date := some t, returned_to := some aid }, books := s.books.set iss.bookId { book with available_quantity := book.available_quantity + 1 } }, none) := by
  simp [issue_return, hj, hact, hb, Issue.is_overdue]

theorem issue_return_already (s : LibState) (j aid : Nat) (t : Date)
    (iss : Issue) (rd : Date)
    (hj : s.issues[j]? = some iss) (hret : iss.return_date = some rd) :
    issue_return s j aid t = .error .alreadyReturned := by
  simp [issue_return, hj, hret]

theorem renew_denied_of_staff (iss : Issue) (a : Actor)
    (hstaff : a.role = "ADMIN" ∨ a.role = "LIBRARIAN") :
    renew_denied iss a = false := by
  simp only [renew_denied, hasattr_profile_role, Bool.not_true, Bool.and_false, Bool.false_or, Bool.not_eq_false']
  rcases hstaff with h | h <;> simp [h]

theorem issue_renew_ok_of_not_denied (s : LibState) (j : Nat) (a : Actor)
    (iss : Issue) (hj : s.issues[j]? = some iss)
    (hd : renew_denied iss a = false)
    (hact : iss.return_date = none)
    (hcnt : iss.renewal_count < iss.max_renewals) :
    issue_renew s j a = .ok { s with issues := s.issues.set j { iss with due_date := iss.due_date + 7, renewal_count := iss.renewal_count + 1 } } := by
  have hng : ¬ iss.renewal_count ≥ iss.max_renewals := by omega
  simp [issue_renew, hj, hd, hact, hng]

theorem issue_renew_ok (s : LibState) (j : Nat) (a : Actor) (iss : Issue)
    (hj : s.issues[j]? = some iss)
    (hstaff : a.role = "ADMIN" ∨ a.role = "LIBRARIAN")
    (hact : iss.return_date = none)
    (hcnt : iss.renewal_count < iss.max_renewals) :
    issue_renew s j a = .ok { s with issues := s.issues.set j { iss with due_date := iss.due_date + 7, renewal_count := iss.renewal_count + 1 } } :=
  issue_renew_ok_of_not_denied s j a iss hj (renew_denied_of_staff iss a hstaff)
    hact hcnt

theorem issue_renew_limit_of_not_denied (s : LibState) (j : Nat) (a : Actor)
    (iss : Issue) (hj : s.issues[j]? = some iss)
    (hd : renew_denied iss a = false)
    (hact : iss.return_date = none)
    (hcnt : iss.renewal_count ≥ iss.max_renewals) :
    issue_renew s j a = .error .renewalLimit := by
  simp [issue_renew, hj, hd, hact, hcnt]

theorem issue_renew_returned_of_not_denied (s : LibState) (j : Nat) (a : Actor)
    (iss : Issue) (rd : Date) (hj : s.issues[j]? = some iss)
    (hd : renew_denied iss a = false)
    (hret : iss.return_date = some rd) :
    issue_renew s j a = .error .alreadyReturned := by
  simp [issue_renew, hj, hd, hret]

theorem issue_renew_limit (s : LibState) (j : Nat) (a : Actor) (iss : Issue)
    (hj : s.issues[j]? = some iss)
    (hstaff : a.role = "ADMIN" ∨ a.role = "LIBRARIAN")
    (hact : iss.return_date = none)
    (hcnt : iss.max_renewals ≤ iss.renewal_count) :
    issue_renew s j a = .error .renewalLimit := by
  have hge : iss.renewal_count ≥ iss.max_renewals := hcnt
  simp [issue_renew, hj, renew_denied_of_staff iss a hstaff, hact, hge]

theorem issue_renew_returned (s : LibState) (j : Nat) (a : Actor) (iss : Issue)
    (rd : Date) (hj : s.issues[j]? = some iss)
    (hstaff : a.role = "ADMIN" ∨ a.role = "LIBRARIAN")
    (hret : iss.return_date = some rd) :
    issue_renew s j a = .error .alreadyReturned := by
  simp [issue_renew, hj, renew_denied_of_staff iss a hstaff, hret]

theorem fine_pay_ok (s : LibState) (f : Nat) (m : String) (t : Date)
    (fine : Fine) (hf : s.fines[f]? = some fine) :
    fine_pay s f m t = .ok { s with fines := s.fines.set f { fine with status := .paid, payment_date := some t, payment_method := m } } := by
  simp [fine_pay, hf]

/-- Replacing one list entry changes `countP` by the difference of the
predicate on the old and the new entry. -/
theorem countP_set_eq {α : Type u} (p : α → Bool) (l : List α) (n : Nat)
    (a b : α) (h : l[n]? = some b) :
    (l.set n a).countP p + (if p b then 1 else 0)
      = l.countP p + (if p a then 1 else 0) := by
  induction l generalizing n with
  | nil => simp at h
  | cons x xs ih =>
    cases n with
    | zero =>
      simp only [List.getElem?_cons_zero, Option.some.injEq] at h
      subst h
      simp only [List.set_cons_zero, List.countP_cons]
      omega
    | succ m =>
      simp only [List.getElem?_cons_succ] at h
      simp only [List.set_cons_succ, List.countP_cons]
      have := ih m h
      omega

/-- Issuing step: decrementing a positive count while appending one ACTIVE
loan of the same book preserves the inventory invariant. -/
theorem inv_issue_step (s : LibState) (hInv : Inv s) (b : Nat) (book : Book)
    (hb : s.books[b]? = some book) (h0 : 0 < book.available_quantity)
    (loan : Issue) (hLoanB : loan.bookId = b) (hLoanAct : loan.return_date = none)
    (book2 : Book) (hbt : book2.total_quantity = book.total_quantity)
    (hba : book2.available_quantity = book.available_quantity - 1) :
    Inv { s with books := s.books.set b book2, issues := s.issues ++ [loan] } := by
  intro b3 book3 hb3
  obtain ⟨hlt, -⟩ := List.getElem?_eq_some_iff.mp hb
  have hloans : activeLoans { s with books := s.books.set b book2, issues := s.issues ++ [loan] } b3
      = activeLoans s b3 + (if isActiveFor b3 loan then 1 else 0) := by
    show (s.issues ++ [loan]).countP (isActiveFor b3)
      = s.issues.countP (isActiveFor b3) + (if isActiveFor b3 loan then 1 else 0)
    simp [List.countP_append, List.countP_singleton]
  rw [hloans]
  by_cases hbb : b3 = b
  · subst hbb
    simp only [List.getElem?_set_self hlt, Option.some.injEq] at hb3
    subst hb3
    obtain ⟨hge, heq⟩ := hInv b3 book hb
    have hfa : isActiveFor b3 loan = true := by
      simp [isActiveFor, hLoanB, hLoanAct]
    rw [hfa, if_pos rfl, hbt, hba]
    push_cast
    omega
  · simp only [List.getElem?_set_ne (fun hh => hbb hh.symm)] at hb3
    obtain ⟨hge, heq⟩ := hInv b3 book3 hb3
    have hfa : isActiveFor b3 loan = false := by
      simp [isActiveFor, hLoanB, hLoanAct]
      omega
    rw [hfa]
    simpa using ⟨hge, heq⟩

theorem inv_issue_create (s : LibState) (hInv : Inv s) (b u a : Nat)
    (t : Date) (d : Int) : Inv (applyOp s (.issue b u a t d)) := by
  simp only [applyOp]
  cases hb : s.books[b]? with
  | none =>
    simp only [issue_create, hb]
    exact hInv
  | some book =>
    by_cases hq : book.available_quantity ≤ 0
    · rw [issue_create_unavailable s b u a t d book hb hq]
      exact hInv
    · rw [issue_create_ok s b u a t d book hb (by omega)]
      exact inv_issue_step s hInv b book hb (by omega) (newLoan b u a t d)
        rfl rfl _ rfl rfl

/-- Returning step: replacing an ACTIVE loan row with the same row marked
returned, while incrementing that book's count, preserves the invariant. -/
theorem inv_return_step (s : LibState) (hInv : Inv s) (j : Nat)
    (iss iss2 : Issue) (hj : s.issues[j]? = some iss)
    (hact : iss.return_date = none)
    (hiss2b : iss2.bookId = iss.bookId)
    (hiss2r : iss2.return_date.isNone = false)
    (book book2 : Book) (hb : s.books[iss.bookId]? = some book)
    (hbt : book2.total_quantity = book.total_quantity)
    (hba : book2.available_quantity = book.available_quantity + 1) :
    Inv { s with issues := s.issues.set j iss2, books := s.books.set iss.bookId book2 } := by
  intro b3 book3 hb3
  obtain ⟨hlt, -⟩ := List.getElem?_eq_some_iff.mp hb
  have hc := countP_set_eq (isActiveFor b3) s.issues j iss2 iss hj
  have hp2 : isActiveFor b3 iss2 = false := by
    simp [isActiveFor, hiss2r]
  have hloans : activeLoans { s with issues := s.issues.set j iss2, books := s.books.set iss.bookId book2 } b3
      = (s.issues.set j iss2).countP (isActiveFor b3) := rfl
  rw [hloans]
  by_cases hbb : b3 = iss.bookId
  · subst hbb
    simp only [List.getElem?_set_self hlt, Option.some.injEq] at hb3
    subst hb3
    obtain ⟨hge, heq⟩ := hInv iss.bookId book hb
    simp only [activeLoans] at heq
    have hp1 : isActiveFor iss.bookId iss = true := by
      simp [isActiveFor, hact]
    rw [hp1, if_pos rfl, hp2, if_neg (by simp)] at hc
    rw [hbt, hba]
    refine ⟨by omega, ?_⟩
    omega
  · simp only [List.getElem?_set_ne (fun hh => hbb hh.symm)] at hb3
    obtain ⟨hge, heq⟩ := hInv b3 book3 hb3
    simp only [activeLoans] at heq
    have hp1 : isActiveFor b3 iss = false := by
      simp [isActiveFor]
      omega
    rw [hp1, if_neg (by simp), hp2, if_neg (by simp)] at hc
    refine ⟨hge, ?_⟩
    rw [show (s.issues.set j iss2).countP (isActiveFor b3) = s.issues.countP (isActiveFor b3) from by omega]
    exact heq

theorem inv_issue_return (s : LibState) (hInv : Inv s) (j aid : Nat)
    (t : Date) : Inv (applyOp s (.ret j aid t)) := by
  simp only [applyOp]
  cases hj : s.issues[j]? with
  | none =>
    simp only [issue_return, hj]
    exact hInv
  | some iss =>
    cases hret : iss.return_date with
    | some rd =>
      rw [issue_return_already s j aid t iss rd hj hret]
      exact hInv
    | none =>
      cases hb : s.books[iss.bookId]? with
      | none =>
        simp only [issue_return, hj, hret, hb, Option.isSome_none, Bool.false_eq_true, if_false]
        exact hInv
      | some book =>
        rw [issue_return_ok s j aid t iss book hj hret hb]
        exact inv_return_step s hInv j iss
          { iss with return_date := some t, returned_to := some aid } hj hret
          rfl rfl book
          { book with available_quantity := book.available_quantity + 1 }
          hb rfl rfl

/-- Renewing step: replacing a loan row by one with the same book and the
same return status leaves every book's active-loan count unchanged. -/
theorem inv_renew_step (s : LibState) (hInv : Inv s) (j : Nat)
    (iss iss2 : Issue) (hj : s.issues[j]? = some iss)
    (hiss2b : iss2.bookId = iss.bookId)
    (hiss2r : iss2.return_date = iss.return_date) :
    Inv { s with issues := s.issues.set j iss2 } := by
  intro b3 book3 hb3
  have hc := countP_set_eq (isActiveFor b3) s.issues j iss2 iss hj
  have hpp : isActiveFor b3 iss2 = isActiveFor b3 iss := by
    simp [isActiveFor, hiss2b, hiss2r]
  rw [hpp] at hc
  obtain ⟨hge, heq⟩ := hInv b3 book3 hb3
  simp only [activeLoans] at heq
  refine ⟨hge, ?_⟩
  have hloans : activeLoans { s with issues := s.issues.set j iss2 } b3
      = (s.issues.set j iss2).countP (isActiveFor b3) := rfl
  rw [hloans]
  rw [show (s.issues.set j iss2).countP (isActiveFor b3) = s.issues.countP (isActiveFor b3) from by omega]
  exact heq

theorem inv_issue_renew (s : LibState) (hInv : Inv s) (j : Nat) (a : Actor) :
    Inv (applyOp s (.renew j a)) := by
  simp only [applyOp]
  cases hj : s.issues[j]? with
  | none =>
    simp only [issue_renew, hj]
    exact hInv
  | some iss =>
    cases hd : renew_denied iss a with
    | true =>
      simp only [issue_renew, hj, hd, Bool.true_eq_false, if_true]
      exact hInv
    | false =>
      cases hret : iss.return_date with
      | some rd =>
        rw [issue_renew_returned_of_not_denied s j a iss rd hj hd hret]
        exact hInv
      | none =>
        by_cases hcnt : iss.renewal_count ≥ iss.max_renewals
        · rw [issue_renew_limit_of_not_denied s j a iss hj hd hret hcnt]
          exact hInv
        · rw [issue_renew_ok_of_not_denied s j a iss hj hd hret (by omega)]
          exact inv_renew_step s hInv j iss _ hj rfl rfl

theorem inv_fine_pay (s : LibState) (hInv : Inv s) (f : Nat) (m : String)
    (t : Date) : Inv (applyOp s (.pay f m t)) := by
  simp only [applyOp]
  cases hf : s.fines[f]? with
  | none =>
    simp only [fine_pay, hf]
    exact hInv
  | some fine =>
    rw [fine_pay_ok s f m t fine hf]
    exact fun b3 book3 hb3 => hInv b3 book3 hb3

theorem inv_applyOp (s : LibState) (hInv : Inv s) (op : Op) :
    Inv (applyOp s op) := by
  cases op with
  | issue b u a t d => exact inv_issue_create s hInv b u a t d
  | ret j a t => exact inv_issue_return s hInv j a t
  | renew j a => exact inv_issue_renew s hInv j a
  | pay f m t => exact inv_fine_pay s hInv f m t

theorem inv_runOps (ops : List Op) :
    ∀ s : LibState, Inv s → Inv (runOps s ops) := by
  induction ops with
  | nil => exact fun s h => h
  | cons op ops ih => exact fun s h => ih (applyOp s op) (inv_applyOp s h op)

theorem issue_create_decrements (s : LibState) (b u a : Nat) (t : Date)
    (d : Int) (s2 : LibState) (i : Nat) (book book2 : Book)
    (hok : issue_create s b u a t d = .ok (s2, i))
    (hb : s.books[b]? = some book) (hb2 : s2.books[b]? = some book2) :
    book2.available_quantity = book.available_quantity - 1 := by
  by_cases hq : book.available_quantity ≤ 0
  · rw [issue_create_unavailable s b u a t d book hb hq] at hok
    exact absurd hok (by simp)
  · rw [issue_create_ok s b u a t d book hb (by omega)] at hok
    simp only [Except.ok.injEq, Prod.mk.injEq] at hok
    obtain ⟨hs2, -⟩ := hok
    subst hs2
    obtain ⟨hlt, -⟩ := List.getElem?_eq_some_iff.mp hb
    simp only [List.getElem?_set_self hlt, Option.some.injEq] at hb2
    rw [hb2.symm]

theorem issue_return_increments (s : LibState) (j aid : Nat) (t : Date)
    (s2 : LibState) (r : Option Int) (iss : Issue) (book book2 : Book)
    (hok : issue_return s j aid t = .ok (s2, r))
    (hj : s.issues[j]? = some iss)
    (hb : s.books[iss.bookId]? = some book)
    (hb2 : s2.books[iss.bookId]? = some book2) :
    book2.available_quantity = book.available_quantity + 1 := by
  cases hret : iss.return_date with
  | some rd =>
    rw [issue_return_already s j aid t iss rd hj hret] at hok
    exact absurd hok (by simp)
  | none =>
    rw [issue_return_ok s j aid t iss book hj hret hb] at hok
    simp only [Except.ok.injEq, Prod.mk.injEq] at hok
    obtain ⟨hs2, -⟩ := hok
    subst hs2
    obtain ⟨hlt, -⟩ := List.getElem?_eq_some_iff.mp hb
    simp only [List.getElem?_set_self hlt, Option.some.injEq] at hb2
    rw [hb2.symm]

theorem c2_s0_inv : Inv c2_s0 := by
  intro b book hb
  cases b with
  | zero =>
    simp only [c2_s0, List.getElem?_cons_zero, Option.some.injEq] at hb
    subst hb
    exact ⟨by decide, by simp [activeLoans, c2_s0]⟩
  | succ n => simp [c2_s0] at hb

/-- Claim C10: for every loan whose return_date field is set, `is_overdue`
is false, `days_overdue` is 0 and `calculate_fine` returns 0, no matter how
far the clock lies past the due date. -/
theorem C10_returned_loans_never_overdue (i : Issue) (rd : Date) (today : Date)
    (h : i.return_date = some rd) :
    i.is_overdue today = false ∧ i.days_overdue today = 0 ∧
      i.calculate_fine today = 0 := by
  have hov : i.is_overdue today = false := by simp [Issue.is_overdue, h]
  exact ⟨hov, by simp [Issue.days_overdue, hov], by simp [Issue.calculate_fine, hov]⟩

theorem C10_witness :
    c10_iss.is_overdue 1000 = false ∧ c10_iss.days_overdue 1000 = 0 ∧
      c10_iss.calculate_fine 1000 = 0 :=
  C10_returned_loans_never_overdue c10_iss 400 1000 rfl

/-- Claim C1 (refuted by the code): `issue_return` assigns `return_date`
before testing `issue.is_overdue`, and `Issue.is_overdue` is false whenever
`return_date` is set, so a successful return never creates a Fine row —
the overdue branch is dead code.  This contradicts the claim that an
overdue return creates exactly one PENDING fine of `overdueDays * 10`
computed from a supplied return date. -/
theorem C1_return_never_creates_fine (s : LibState) (j aid : Nat) (t : Date)
    (s2 : LibState) (r : Option Int)
    (hok : issue_return s j aid t = .ok (s2, r)) :
    r = none ∧ s2.fines = s.fines := by
  cases hj : s.issues[j]? with
  | none => simp [issue_return, hj] at hok
  | some iss =>
    cases hret : iss.return_date with
    | some rd =>
      rw [issue_return_already s j aid t iss rd hj hret] at hok
      exact absurd hok (by simp)
    | none =>
      cases hb : s.books[iss.bookId]? with
      | none => simp [issue_return, hj, hret, hb] at hok
      | some book =>
        rw [issue_return_ok s j aid t iss book hj hret hb] at hok
        simp only [Except.ok.injEq, Prod.mk.injEq] at hok
        obtain ⟨hs2, hr⟩ := hok
        subst hs2
        exact ⟨hr.symm, rfl⟩

theorem C1_witness : (none : Option Int) = none ∧ c1_s2.fines = c1_s.fines :=
  C1_return_never_creates_fine c1_s 0 1 105 c1_s2 none rfl

/-- Claim C5 (refuted by the code): Python precedence makes the renewal
permission condition `A and B or C` parse as `(A ∧ B) ∨ C`; since
`hasattr(request.user.profile, 'role')` is always true, `A ∧ B` is always
false and the condition collapses to "role not in [ADMIN, LIBRARIAN]".
Ownership is ignored: a STUDENT borrower is denied renewal of their own
ACTIVE loan, contradicting "owner OR staff may renew". -/
theorem C5_renew_permission_ignores_owner :
    (∀ (i : Issue) (a : Actor),
      renew_denied i a
        = !(decide (a.role = "ADMIN") || decide (a.role = "LIBRARIAN"))) ∧
    issue_renew c5_s 0 { id := 5, role := "STUDENT" }
      = .error .permissionDenied := by
  constructor
  · intro i a
    simp [renew_denied, hasattr_profile_role]
  · rfl

/-- Claim C8: issuing a book with `available_quantity = 0` fails with the
unavailable error and leaves the whole database state unchanged (no Loan
row, count still 0). -/
theorem C8_issue_unavailable (s : LibState) (b u a : Nat) (t : Date) (d : Int)
    (book : Book) (hb : s.books[b]? = some book)
    (h0 : book.available_quantity = 0) :
    issue_create s b u a t d = .error .unavailable ∧
      applyOp s (.issue b u a t d) = s := by
  have he := issue_create_unavailable s b u a t d book hb (by omega)
  exact ⟨he, by simp [applyOp, he]⟩

theorem C8_witness :
    issue_create c8_s 0 5 1 100 14 = .error .unavailable ∧
      applyOp c8_s (.issue 0 5 1 100 14) = c8_s :=
  C8_issue_unavailable c8_s 0 5 1 100 14 ⟨3, 0⟩ rfl rfl

/-- Claim C9: a successful issue of a book with copies available
decrements `available_quantity` by exactly 1 and appends a Loan with
`due_date = issue_date + days` (the request defaulting `days` to 14),
`renewal_count = 0` and no return date (state ACTIVE). -/
theorem C9_issue_success (s : LibState) (b u a : Nat) (t : Date) (d : Int)
    (book : Book) (hb : s.books[b]? = some book)
    (hpos : 0 < book.available_quantity) :
    ∃ s2, issue_create s b u a t d = .ok (s2, s.issues.length) ∧
      s2.books[b]? = some { book with available_quantity := book.available_quantity - 1 } ∧
      s2.issues = s.issues ++ [newLoan b u a t d] ∧
      (newLoan b u a t d).due_date = t + d ∧
      (newLoan b u a t d).renewal_count = 0 ∧
      (newLoan b u a t d).return_date = none ∧
      default_issue_days = 14 := by
  obtain ⟨hlt, -⟩ := List.getElem?_eq_some_iff.mp hb
  refine ⟨_, issue_create_ok s b u a t d book hb hpos, ?_, rfl, rfl, rfl, rfl, rfl⟩
  exact List.getElem?_set_self (by simpa using hlt)

theorem C9_witness :
    ∃ s2, issue_create c9_s 0 5 1 100 14 = .ok (s2, c9_s.issues.length) ∧
      s2.books[0]? = some { total_quantity := 2, available_quantity := 1 - 1 } ∧
      s2.issues = c9_s.issues ++ [newLoan 0 5 1 100 14] ∧
      (newLoan 0 5 1 100 14).due_date = 100 + 14 ∧
      (newLoan 0 5 1 100 14).renewal_count = 0 ∧
      (newLoan 0 5 1 100 14).return_date = none ∧
      default_issue_days = 14 :=
  C9_issue_success c9_s 0 5 1 100 14 ⟨2, 1⟩ rfl (by decide)

/-- Claim C3 counterexample: in `c3_s`, borrower 5 already holds an ACTIVE
loan of book 0, yet `issue_create` succeeds, appends a second loan for the
same (book, borrower) pair and decrements the count — the claimed
DuplicateLoanError branch does not exist in the code. -/
theorem C3_counterexample :
    c3_iss.bookId = 0 ∧ c3_iss.userId = 5 ∧ c3_iss.return_date = none ∧
    issue_create c3_s 0 5 1 100 14
      = .ok ({ books := [⟨2, 0⟩], issues := [c3_iss, newLoan 0 5 1 100 14], fines := [] }, 1) :=
  ⟨rfl, rfl, rfl, rfl⟩

/-- Claim C3 amended: `issue_create` performs no duplicate-active-loan
check: even when the borrower already holds an ACTIVE loan of the same
book, an issue with copies remaining succeeds, appending a second loan and
decrementing `available_quantity` by 1. -/
theorem C3_amended_no_duplicate_guard (s : LibState) (b u a : Nat) (t : Date)
    (d : Int) (book : Book) (j : Nat) (iss : Issue)
    (hb : s.books[b]? = some book) (hpos : 0 < book.available_quantity)
    (hj : s.issues[j]? = some iss)
    (hdup : iss.bookId = b ∧ iss.userId = u ∧ iss.return_date = none) :
    issue_create s b u a t d = .ok ({ s with books := s.books.set b { book with available_quantity := book.available_quantity - 1 }, issues := s.issues ++ [newLoan b u a t d] }, s.issues.length) :=
  issue_create_ok s b u a t d book hb hpos

theorem C3_amended_witness :
    issue_create c3_s 0 5 1 100 14 = .ok ({ c3_s with books := c3_s.books.set 0 { (⟨2, 1⟩ : Book) with available_quantity := (1 : Int) - 1 }, issues := c3_s.issues ++ [newLoan 0 5 1 100 14] }, c3_s.issues.length) :=
  C3_amended_no_duplicate_guard c3_s 0 5 1 100 14 ⟨2, 1⟩ 0 c3_iss rfl
    (by decide) rfl ⟨rfl, rfl, rfl⟩

/-- Claim C4 counterexample: `c4_fine` is already PAID (paid on day 50 by
CASH), yet `fine_pay` succeeds again and overwrites the record with a new
payment date and method — no AlreadySettledError, record altered. -/
theorem C4_counterexample :
    c4_fine.status = .paid ∧
    fine_pay c4_s 0 "UPI" 200
      = .ok { books := [], issues := [], fines := [{ issueId := 0, amount := 50, status := .paid, payment_date := some 200, payment_method := "UPI" }] } ∧
    ({ issueId := 0, amount := 50, status := .paid, payment_date := some 200, payment_method := "UPI" } : Fine) ≠ c4_fine :=
  ⟨rfl, rfl, by decide⟩

/-- Claim C4 amended: `fine_pay` never checks the fine's status: for every
existing fine — PENDING, PAID or WAIVED alike — it succeeds, sets the
status to PAID and overwrites `payment_date` and `payment_method`.  In
particular a PENDING fine transitions to PAID as claimed, but re-paying a
settled fine does not fail and does alter the record. -/
theorem C4_amended_pay_unconditional (s : LibState) (f : Nat) (m : String)
    (t : Date) (fine : Fine) (hf : s.fines[f]? = some fine) :
    fine_pay s f m t = .ok { s with fines := s.fines.set f { fine with status := .paid, payment_date := some t, payment_method := m } } :=
  fine_pay_ok s f m t fine hf

theorem C4_amended_witness :
    fine_pay c4w_s 0 "CASH" 120 = .ok { c4w_s with fines := c4w_s.fines.set 0 { c4w_fine with status := .paid, payment_date := some 120, payment_method := "CASH" } } :=
  C4_amended_pay_unconditional c4w_s 0 "CASH" 120 c4w_fine rfl

/-- Claim C6: for an ACTIVE loan and a staff actor (the permission gate of
views.py admits exactly ADMIN/LIBRARIAN, see C5), a renewal below the
limit adds exactly 7 days to `due_date` and increments `renewal_count` by
1, so the limit is reached only after `max_renewals` successful renewals;
once `renewal_count ≥ max_renewals` the renewal fails with the
renewal-limit error and the database state — `due_date` and
`renewal_count` included — is unchanged. -/
theorem C6_renewal_limit (s : LibState) (j : Nat) (a : Actor) (iss : Issue)
    (hj : s.issues[j]? = some iss)
    (hstaff : a.role = "ADMIN" ∨ a.role = "LIBRARIAN")
    (hact : iss.return_date = none) :
    (iss.renewal_count < iss.max_renewals →
      issue_renew s j a = .ok { s with issues := s.issues.set j { iss with due_date := iss.due_date + 7, renewal_count := iss.renewal_count + 1 } }) ∧
    (iss.max_renewals ≤ iss.renewal_count →
      issue_renew s j a = .error .renewalLimit ∧ applyOp s (.renew j a) = s) := by
  refine ⟨fun h => issue_renew_ok s j a iss hj hstaff hact h, fun h => ?_⟩
  have he := issue_renew_limit s j a iss hj hstaff hact h
  exact ⟨he, by simp [applyOp, he]⟩

theorem C6_witness :
    ((0 : Int) < 2 →
      issue_renew c6_s 0 c6_actor = .ok { c6_s with issues := c6_s.issues.set 0 { c6_iss with due_date := c6_iss.due_date + 7, renewal_count := c6_iss.renewal_count + 1 } }) ∧
    ((2 : Int) ≤ 0 →
      issue_renew c6_s 0 c6_actor = .error .renewalLimit ∧
        applyOp c6_s (.renew 0 c6_actor) = c6_s) :=
  C6_renewal_limit c6_s 0 c6_actor c6_iss rfl (Or.inr rfl) rfl

/-- Claim C7: a RETURNED loan is terminal: returning it again fails with
the already-returned warning and the database is unchanged (in particular
`available_quantity` is not incremented a second time), and renewing it
changes nothing for any actor — a staff actor gets the already-returned
error. -/
theorem C7_returned_is_terminal (s : LibState) (j aid : Nat) (t : Date)
    (a : Actor) (iss : Issue) (rd : Date)
    (hj : s.issues[j]? = some iss) (hret : iss.return_date = some rd) :
    (issue_return s j aid t = .error .alreadyReturned ∧
      applyOp s (.ret j aid t) = s) ∧
    applyOp s (.renew j a) = s ∧
    ((a.role = "ADMIN" ∨ a.role = "LIBRARIAN") →
      issue_renew s j a = .error .alreadyReturned) := by
  have hr := issue_return_already s j aid t iss rd hj hret
  refine ⟨⟨hr, by simp [applyOp, hr]⟩, ?_,
    fun hstaff => issue_renew_returned s j a iss rd hj hstaff hret⟩
  cases hd : renew_denied iss a with
  | true => simp [applyOp, issue_renew, hj, hd]
  | false => simp [applyOp, issue_renew, hj, hd, hret]

theorem C7_witness :
    (issue_return c7_s 0 1 105 = .error .alreadyReturned ∧
      applyOp c7_s (.ret 0 1 105) = c7_s) ∧
    applyOp c7_s (.renew 0 c7_actor) = c7_s ∧
    ((c7_actor.role = "ADMIN" ∨ c7_actor.role = "LIBRARIAN") →
      issue_renew c7_s 0 c7_actor = .error .alreadyReturned) :=
  C7_returned_is_terminal c7_s 0 1 105 c7_actor c7_iss 99 rfl rfl

/-- Claim C2: starting from any database satisfying the inventory
bookkeeping invariant (each book's available count is non-negative and
differs from its total by exactly its active loans — true of a fresh
catalog, where `book_add` sets available = total and no loans exist),
after any sequence of lifecycle requests every book satisfies
`0 ≤ available_quantity ≤ total_quantity`; moreover every successful
`issue_create` decrements the issued book's available count by exactly 1
and every successful `issue_return` increments the returned book's
available count by exactly 1. -/
theorem C2_inventory_bounds :
    (∀ s0 : LibState, Inv s0 → ∀ ops : List Op, ∀ (b : Nat) (book : Book),
      (runOps s0 ops).books[b]? = some book →
      0 ≤ book.available_quantity ∧
        book.available_quantity ≤ book.total_quantity) ∧
    (∀ (s : LibState) (b u a : Nat) (t : Date) (d : Int) (s2 : LibState)
      (i : Nat) (book book2 : Book),
      issue_create s b u a t d = .ok (s2, i) →
      s.books[b]? = some book → s2.books[b]? = some book2 →
      book2.available_quantity = book.available_quantity - 1) ∧
    (∀ (s : LibState) (j aid : Nat) (t : Date) (s2 : LibState)
      (r : Option Int) (iss : Issue) (book book2 : Book),
      issue_return s j aid t = .ok (s2, r) →
      s.issues[j]? = some iss →
      s.books[iss.bookId]? = some book →
      s2.books[iss.bookId]? = some book2 →
      book2.available_quantity = book.available_quantity + 1) := by
  refine ⟨?_, ?_, ?_⟩
  · intro s0 h0 ops b book hb
    obtain ⟨hge, heq⟩ := inv_runOps ops s0 h0 b book hb
    refine ⟨hge, ?_⟩
    have hnn : (0 : Int) ≤ (activeLoans (runOps s0 ops) b : Int) :=
      Int.ofNat_nonneg _
    omega
  · exact fun s b u a t d s2 i book book2 hok hb hb2 =>
      issue_create_decrements s b u a t d s2 i book book2 hok hb hb2
  · exact fun s j aid t s2 r iss book book2 hok hj hb hb2 =>
      issue_return_increments s j aid t s2 r iss book book2 hok hj hb hb2

theorem C2_witness :
    0 ≤ (⟨1, 0⟩ : Book).available_quantity ∧
      (⟨1, 0⟩ : Book).available_quantity ≤ (⟨1, 0⟩ : Book).total_quantity :=
  C2_inventory_bounds.1 c2_s0 c2_s0_inv [.issue 0 5 1 100 14] 0 ⟨1, 0⟩ rfl

end Library
